import Mathlib

/-!
Verification of the Player Agent repository (Even/Odd game league player).

This file gives a shallow embedding, in Lean 4, of the parts of the
repository that the frozen claims are about:

  * `src/my_project/agents/player/state.py`    — `PlayerState`
  * `src/my_project/agents/player/strategy.py` — `StrategyEngine.choose_parity`
  * `src/my_project/agents/player/handlers.py` — `ToolHandlers.choose_parity`
  * `src/my_project/core/protocol.py`          — `ProtocolMessageBuilder`
  * `src/my_project/utils/timestamp.py`        — `TimestampUtil`

Python dictionaries with a fixed key set become Lean structures; Python
`None` / missing keys become `Option`; raising an exception becomes
`Except`; the wall clock (`utc_now`) and the random generator
(`random.choice`) become explicit parameters.  Machine integers do not
occur (all Python ints here are unbounded), so `Nat` and `Int` are used
directly.
-/

namespace PlayerAgent

/-! ## Match State model (`state.py`) -/

/-- Record type mirroring the `MatchResult` dataclass of `state.py`. -/
structure MatchResult where
  match_id : String
  opponent_id : String
  player_choice : String
  opponent_choice : String
  drawn_number : Int
  result : String
  points_earned : Nat
  timestamp : String
  deriving Repr, DecidableEq

/-- Statistics dictionary of `PlayerState` (`self.stats` in `state.py`),
with the five integer counters it is initialised with. -/
structure Stats where
  wins : Nat
  draws : Nat
  losses : Nat
  total_points : Nat
  total_matches : Nat
  deriving Repr, DecidableEq

/-- In-memory state of `PlayerState` (`state.py`).  The persistence
fields are kept for fidelity, but the file-saving helper
`_maybe_save_state` never mutates any in-memory field, so it has no
effect on this model. -/
structure PlayerState where
  player_id : String
  display_name : String
  max_history_entries : Nat
  persistence_enabled : Bool
  state_file_path : Option String
  auth_token : Option String
  registered : Bool
  stats : Stats
  match_history : List MatchResult
  deriving Repr, DecidableEq

/-- State produced by a successful `PlayerState.__init__` with
persistence disabled (the default configuration): empty statistics and
empty history. -/
def PlayerState.new (player_id display_name : String)
    (max_history_entries : Nat) : PlayerState :=
  { player_id := player_id
    display_name := display_name
    max_history_entries := max_history_entries
    persistence_enabled := false
    state_file_path := none
    auth_token := none
    registered := false
    stats := { wins := 0, draws := 0, losses := 0,
               total_points := 0, total_matches := 0 }
    match_history := [] }

/-- Constructor of `PlayerState` including its validation: `__init__`
raises `ValueError` when `player_id` is falsy (empty). -/
def PlayerState.make (player_id display_name : String)
    (max_history_entries : Nat) : Except String PlayerState :=
  if player_id = "" then
    .error "player_id cannot be None or empty"
  else
    .ok (PlayerState.new player_id display_name max_history_entries)

/-- Python `d.get(key, default)` on a string-to-string dictionary,
modelled on an association list. -/
def dictGetD (l : List (String × String)) (k d : String) : String :=
  match l.find? (fun p => p.1 == k) with
  | some p => p.2
  | none => d

/-- Incoming `GAME_OVER` message as read by `update_from_result`: every
field is fetched with `.get`, so each may be absent (`Option`); a `None`
winner and an absent winner coincide, exactly as in Python. -/
structure GameOverMsg where
  match_id : Option String
  winner : Option String
  drawn_number : Option Int
  choices : List (String × String)
  opponent_id : Option String
  deriving Repr, DecidableEq

/-- Result classification of `update_from_result`: `winner is None`
gives a draw worth 1 point, `winner == self.player_id` a win worth 3,
anything else a loss worth 0. -/
def resultPoints (player_id : String) (winner : Option String) :
    String × Nat :=
  match winner with
  | none => ("draw", 1)
  | some w => if w == player_id then ("win", 3) else ("loss", 0)

/-- Match record appended by `update_from_result`, with the `.get`
defaults of `state.py` (`"unknown"` for missing ids and choices, `0`
for a missing drawn number).  The timestamp produced by `utc_now()` is
passed in as `ts`. -/
def mkMatchRecord (player_id : String) (msg : GameOverMsg) (ts : String) :
    MatchResult :=
  let opponent_id := msg.opponent_id.getD "unknown"
  let rp := resultPoints player_id msg.winner
  { match_id := msg.match_id.getD "unknown"
    opponent_id := opponent_id
    player_choice := dictGetD msg.choices player_id "unknown"
    opponent_choice := dictGetD msg.choices opponent_id "unknown"
    drawn_number := msg.drawn_number.getD 0
    result := rp.1
    points_earned := rp.2
    timestamp := ts }

/-- Python slice `xs[-n:]` for a `Nat` index `n`, as used by the history
trim of `update_from_result`.  Note the Python quirk: `-0 == 0`, so
`xs[-0:]` is the whole list, not the empty one. -/
def pyTakeLast (n : Nat) (xs : List α) : List α :=
  if n = 0 then xs else xs.drop (xs.length - n)

/-- Model of `PlayerState.update_from_result`: classify the result and
bump the matching counter, add the points and the match count, append
the new record, and trim the history with `history[-max_history_entries:]`
when it exceeds the bound. -/
def PlayerState.update_from_result (s : PlayerState) (msg : GameOverMsg)
    (ts : String) : PlayerState :=
  let rp := resultPoints s.player_id msg.winner
  let stats1 :=
    match msg.winner with
    | none => { s.stats with draws := s.stats.draws + 1 }
    | some w =>
      if w == s.player_id then { s.stats with wins := s.stats.wins + 1 }
      else { s.stats with losses := s.stats.losses + 1 }
  let stats2 := { stats1 with
    total_points := stats1.total_points + rp.2
    total_matches := stats1.total_matches + 1 }
  let hist := s.match_history ++ [mkMatchRecord s.player_id msg ts]
  let hist2 :=
    if hist.length > s.max_history_entries then
      pyTakeLast s.max_history_entries hist
    else hist
  { s with stats := stats2, match_history := hist2 }

/-- Model of `PlayerState.set_auth_token`: store the token and flip the
registered flag (`_maybe_save_state` does not change in-memory state). -/
def PlayerState.set_auth_token (s : PlayerState) (auth_token : String) :
    PlayerState :=
  { s with auth_token := some auth_token, registered := true }

/-- Python slice `xs[i:]` for a possibly negative `Int` index, as used
by `get_match_history` (`history[-limit:]`). -/
def pySliceFrom (xs : List α) (i : Int) : List α :=
  if i < 0 then xs.drop ((xs.length + i).toNat)
  else xs.drop i.toNat

/-- Model of `PlayerState.get_match_history`.  The Python guard is
`if limit:`, so `limit = None` and `limit = 0` (both falsy) return the
whole history, and only a truthy limit slices `history[-limit:]`.  The
`asdict` conversion is identity up to representation, so records are
returned directly. -/
def PlayerState.get_match_history (s : PlayerState) (limit : Option Int) :
    List MatchResult :=
  match limit with
  | none => s.match_history
  | some n => if n = 0 then s.match_history else pySliceFrom s.match_history (-n)

/-- Sequential application of `update_from_result` over a list of
(message, timestamp) pairs, oldest first. -/
def applyResults (s : PlayerState) :
    List (GameOverMsg × String) → PlayerState
  | [] => s
  | (msg, ts) :: rest => applyResults (s.update_from_result msg ts) rest

/-! ## Basic lemmas on the Match State model -/

/-- The fields of the state that `update_from_result` never touches. -/
theorem update_from_result_const (s : PlayerState) (msg : GameOverMsg)
    (ts : String) :
    (s.update_from_result msg ts).player_id = s.player_id ∧
    (s.update_from_result msg ts).max_history_entries = s.max_history_entries := by
  unfold PlayerState.update_from_result
  constructor <;> rfl

/-- Counter bookkeeping of a single `update_from_result` step. -/
theorem update_from_result_stats (s : PlayerState) (msg : GameOverMsg)
    (ts : String) :
    (s.update_from_result msg ts).stats.total_matches
        = s.stats.total_matches + 1 ∧
    (s.update_from_result msg ts).stats.wins
        + (s.update_from_result msg ts).stats.draws
        + (s.update_from_result msg ts).stats.losses
      = s.stats.wins + s.stats.draws + s.stats.losses + 1 ∧
    (s.update_from_result msg ts).stats.total_points
      = s.stats.total_points + (resultPoints s.player_id msg.winner).2 := by
  unfold PlayerState.update_from_result
  rcases msg.winner with _ | w
  · simp [resultPoints]; omega
  · by_cases hw : (w == s.player_id) = true <;>
      simp [resultPoints, hw] <;> omega

/-- Projection of the fresh state: identifier. -/
@[simp] theorem PlayerState.new_player_id (p d : String) (m : Nat) :
    (PlayerState.new p d m).player_id = p := rfl

/-- Projection of the fresh state: history bound. -/
@[simp] theorem PlayerState.new_max_history (p d : String) (m : Nat) :
    (PlayerState.new p d m).max_history_entries = m := rfl

/-- Projection of the fresh state: zeroed statistics. -/
@[simp] theorem PlayerState.new_stats (p d : String) (m : Nat) :
    (PlayerState.new p d m).stats
      = { wins := 0, draws := 0, losses := 0,
          total_points := 0, total_matches := 0 } := rfl

/-- Projection of the fresh state: empty history. -/
@[simp] theorem PlayerState.new_match_history (p d : String) (m : Nat) :
    (PlayerState.new p d m).match_history = [] := rfl

/-- Statistics invariant claimed by the spec: the match count is the sum
of the three outcome counters and the point total follows the 3/1/0
scoring rule. -/
def statsInvariant (st : Stats) : Prop :=
  st.total_matches = st.wins + st.draws + st.losses ∧
  st.total_points = 3 * st.wins + st.draws

/-- Preservation of the statistics invariant by one result update. -/
theorem update_from_result_invariant (s : PlayerState) (msg : GameOverMsg)
    (ts : String) (h : statsInvariant s.stats) :
    statsInvariant (s.update_from_result msg ts).stats := by
  unfold statsInvariant at *
  unfold PlayerState.update_from_result
  rcases msg.winner with _ | w
  · simp [resultPoints]; omega
  · by_cases hw : (w == s.player_id) = true <;>
      simp [resultPoints, hw] <;> omega

/-- Match count bookkeeping over a whole sequence of results. -/
theorem applyResults_total_matches (l : List (GameOverMsg × String)) :
    ∀ s : PlayerState,
      (applyResults s l).stats.total_matches
        = s.stats.total_matches + l.length := by
  induction l with
  | nil => intro s; simp [applyResults]
  | cons p rest ih =>
    intro s
    rcases p with ⟨msg, ts⟩
    have h := (update_from_result_stats s msg ts).1
    simp only [applyResults, List.length_cons]
    rw [ih]
    omega

/-- Preservation of the statistics invariant over a whole sequence. -/
theorem applyResults_invariant (l : List (GameOverMsg × String)) :
    ∀ s : PlayerState, statsInvariant s.stats →
      statsInvariant (applyResults s l).stats := by
  induction l with
  | nil => intro s h; simpa [applyResults] using h
  | cons p rest ih =>
    intro s h
    rcases p with ⟨msg, ts⟩
    exact ih _ (update_from_result_invariant s msg ts h)

/-- C4: starting from a freshly constructed `PlayerState` and applying
any sequence of `N` result messages via `update_from_result`, the
statistics satisfy `total_matches = N`, `wins + draws + losses = N`,
and `total_points = 3 * wins + 1 * draws`.  Quantifying over all
sequences also covers every prefix, so the invariant holds after each
individual application. -/
theorem stats_invariant_roundtrip (player_id display_name : String)
    (maxH : Nat) (l : List (GameOverMsg × String)) :
    (applyResults (PlayerState.new player_id display_name maxH) l).stats.total_matches
        = l.length ∧
    (applyResults (PlayerState.new player_id display_name maxH) l).stats.wins
        + (applyResults (PlayerState.new player_id display_name maxH) l).stats.draws
        + (applyResults (PlayerState.new player_id display_name maxH) l).stats.losses
      = l.length ∧
    (applyResults (PlayerState.new player_id display_name maxH) l).stats.total_points
      = 3 * (applyResults (PlayerState.new player_id display_name maxH) l).stats.wins
        + 1 * (applyResults (PlayerState.new player_id display_name maxH) l).stats.draws := by
  have h1 := applyResults_total_matches l (PlayerState.new player_id display_name maxH)
  have h2 := applyResults_invariant l (PlayerState.new player_id display_name maxH)
    (by constructor <;> rfl)
  unfold statsInvariant at h2
  simp only [PlayerState.new_stats] at h1
  simp at h1
  omega

/-- Identity case of the Python trim slice: a list already within the
bound (or a zero bound, where `xs[-0:]` is the whole list) is unchanged. -/
theorem pyTakeLast_eq_self (n : Nat) (xs : List α)
    (h : xs.length ≤ n ∨ n = 0) : pyTakeLast n xs = xs := by
  unfold pyTakeLast
  by_cases hn : n = 0
  · simp [hn]
  · have hle : xs.length ≤ n := h.resolve_right hn
    have : xs.length - n = 0 := by omega
    simp [hn, this]

/-- Length bound of the trim slice for a positive bound. -/
theorem pyTakeLast_length_le (n : Nat) (xs : List α) (hn : n ≠ 0) :
    (pyTakeLast n xs).length ≤ n := by
  unfold pyTakeLast
  simp [hn]
  omega

/-- Composition of the trim slice with a later append: trimming, adding
more entries and trimming again is the same as trimming once at the
end. -/
theorem pyTakeLast_append (n : Nat) (xs ys : List α) :
    pyTakeLast n (pyTakeLast n xs ++ ys) = pyTakeLast n (xs ++ ys) := by
  by_cases hn : n = 0
  · simp [pyTakeLast, hn]
  · have hk : ∀ zs : List α, pyTakeLast n zs = (zs.reverse.take n).reverse := by
      intro zs
      simp [pyTakeLast, hn, ← List.rtake_eq_reverse_take_reverse, List.rtake]
    rw [hk xs, hk (((xs.reverse.take n).reverse) ++ ys), hk (xs ++ ys)]
    rw [List.reverse_append, List.reverse_reverse]
    rw [List.reverse_append]
    rw [List.take_append_eq_append_take, List.take_append_eq_append_take]
    rw [List.take_take]
    have : min (n - ys.reverse.length) n = n - ys.reverse.length := by omega
    rw [this]

/-- Effect of one result update on the history: unconditionally, the
new history is the Python slice `(old ++ [record])[-max:]` (which is a
no-op when the bound is not exceeded). -/
theorem update_from_result_history (s : PlayerState) (msg : GameOverMsg)
    (ts : String) :
    (s.update_from_result msg ts).match_history
      = pyTakeLast s.max_history_entries
          (s.match_history ++ [mkMatchRecord s.player_id msg ts]) := by
  show (if (s.match_history ++ [mkMatchRecord s.player_id msg ts]).length
            > s.max_history_entries
        then pyTakeLast s.max_history_entries
              (s.match_history ++ [mkMatchRecord s.player_id msg ts])
        else s.match_history ++ [mkMatchRecord s.player_id msg ts])
      = pyTakeLast s.max_history_entries
          (s.match_history ++ [mkMatchRecord s.player_id msg ts])
  split
  · rfl
  · rename_i hlt
    have hle : (s.match_history ++ [mkMatchRecord s.player_id msg ts]).length
        ≤ s.max_history_entries := by omega
    exact (pyTakeLast_eq_self _ _ (Or.inl hle)).symm

/-- History after a whole sequence of results: the Python slice of the
accumulated records, provided the starting history already respects the
bound (as the fresh state does). -/
theorem applyResults_history (l : List (GameOverMsg × String)) :
    ∀ s : PlayerState,
      (s.match_history.length ≤ s.max_history_entries ∨
        s.max_history_entries = 0) →
      (applyResults s l).match_history
        = pyTakeLast s.max_history_entries
            (s.match_history
              ++ l.map (fun p => mkMatchRecord s.player_id p.1 p.2)) := by
  induction l with
  | nil =>
    intro s h
    simp [applyResults, pyTakeLast_eq_self _ _ h]
  | cons p rest ih =>
    intro s h
    rcases p with ⟨msg, ts⟩
    have hconst := update_from_result_const s msg ts
    have hhist := update_from_result_history s msg ts
    have hcond :
        (s.update_from_result msg ts).match_history.length
            ≤ (s.update_from_result msg ts).max_history_entries ∨
          (s.update_from_result msg ts).max_history_entries = 0 := by
      by_cases hm : s.max_history_entries = 0
      · right; rw [hconst.2]; exact hm
      · left; rw [hconst.2, hhist]; exact pyTakeLast_length_le _ _ hm
    have := ih (s.update_from_result msg ts) hcond
    simp only [applyResults]
    rw [this, hconst.1, hconst.2, hhist, pyTakeLast_append]
    simp

/-- C5: with `max_history_entries = 5`, after applying 10 results the
history has length exactly 5 and consists of the records of the 6th
through 10th applied results, in application order (FIFO eviction). -/
theorem history_fifo_eviction (player_id display_name : String)
    (l : List (GameOverMsg × String)) (hlen : l.length = 10) :
    (applyResults (PlayerState.new player_id display_name 5) l).match_history
        = (l.drop 5).map (fun p => mkMatchRecord player_id p.1 p.2) ∧
    (applyResults (PlayerState.new player_id display_name 5) l).match_history.length
        = 5 := by
  have h := applyResults_history l (PlayerState.new player_id display_name 5)
    (by left; simp)
  simp only [PlayerState.new_player_id, PlayerState.new_max_history,
    PlayerState.new_match_history, List.nil_append] at h
  rw [h]
  constructor
  · simp [pyTakeLast, List.length_map, hlen, List.map_drop]
  · simp [pyTakeLast, List.length_map, hlen]

/-- Concrete sequence of ten identical `GAME_OVER` messages used to
instantiate the FIFO eviction theorem. -/
def sampleResults : List (GameOverMsg × String) :=
  List.replicate 10
    ({ match_id := some "R1M1"
       winner := some "P01"
       drawn_number := some 4
       choices := [("P01", "even"), ("P02", "odd")]
       opponent_id := some "P02" },
     "2025-01-15T10:30:00.123456Z")

/-- Witness for C5 at a concrete run of ten results. -/
theorem history_fifo_eviction_witness :
    sampleResults.length = 10 ∧
    ((applyResults (PlayerState.new "P01" "Agent" 5) sampleResults).match_history
        = (sampleResults.drop 5).map (fun p => mkMatchRecord "P01" p.1 p.2) ∧
      (applyResults (PlayerState.new "P01" "Agent" 5) sampleResults).match_history.length
        = 5) :=
  ⟨rfl, history_fifo_eviction "P01" "Agent" sampleResults rfl⟩

/-- C9: `set_auth_token` is idempotent; calling it twice with the same
token leaves the whole state (token, registered flag, statistics and
history included) identical to calling it once. -/
theorem set_auth_token_idempotent (s : PlayerState) (t : String) :
    (s.set_auth_token t).set_auth_token t = s.set_auth_token t := rfl

/-- C10: `get_match_history` with `limit = 0` returns the entire match
history, oldest first, because the Python guard `if limit:` treats the
zero limit as falsy and skips the slice. -/
theorem get_match_history_zero_limit (s : PlayerState) :
    s.get_match_history (some 0) = s.match_history := by
  simp [PlayerState.get_match_history]

/-! ## Strategy Engine model (`strategy.py`)

The constructor of `StrategyEngine` restricts `mode` to `"random"`,
`"llm"` or `"hybrid"`, so the mode is an enumeration here.  The awaited
reasoning call `asyncio.wait_for(self._llm_choice(context), ...)` is an
effect; its outcome is passed in as an `LLMResult`: it either times
out, raises some transport or service exception, or produces a value
(the `choice` field of the structured response, or the text fallback).
`random.choice(["even", "odd"])` is modelled by an explicit coin. -/

/-- Strategy mode accepted by the `StrategyEngine` constructor. -/
inductive Mode
  | random
  | llm
  | hybrid
  deriving DecidableEq, Repr

/-- Outcome of one awaited reasoning call. -/
inductive LLMResult
  | timeout
  | failure (msg : String)
  | ok (value : String)
  deriving DecidableEq, Repr

/-- Model of `random.choice(["even", "odd"])`. -/
def randomChoice (coin : Bool) : String :=
  if coin then "even" else "odd"

/-- Inner `try` of `StrategyEngine.choose_parity` for the llm and
hybrid modes: a timeout is answered with a random fallback in every
mode; any other exception is re-raised when the mode is reasoning-only
and answered with a random fallback in hybrid mode; a value outside the
canonical set makes `_llm_choice` itself return a random fallback. -/
def chooseParityTry (mode : Mode) (llm : LLMResult) (coin : Bool) :
    Except String String :=
  match llm with
  | .timeout => .ok (randomChoice coin)
  | .failure e => if mode = Mode.llm then .error e else .ok (randomChoice coin)
  | .ok v =>
    if v == "even" || v == "odd" then .ok v else .ok (randomChoice coin)

/-- Model of `StrategyEngine.choose_parity`.  The whole body sits in an
outer `try` whose handler `except Exception` logs and returns
`self._random_choice()`, so even the exception re-raised by the inner
handler in reasoning-only mode is converted into a random choice. -/
def StrategyEngine.choose_parity (mode : Mode) (llm : LLMResult)
    (coin : Bool) : Except String String :=
  match mode with
  | .random => .ok (randomChoice coin)
  | .llm | .hybrid =>
    match chooseParityTry mode llm coin with
    | .ok c => .ok c
    | .error _ => .ok (randomChoice coin)

/-- Both possible random draws are canonical. -/
theorem randomChoice_canonical (coin : Bool) :
    randomChoice coin = "even" ∨ randomChoice coin = "odd" := by
  cases coin <;> simp [randomChoice]

/-- C3: whenever `StrategyEngine.choose_parity` returns normally — and
in this model it always does — the returned value belongs to the
canonical lowercase set, in every mode and for every reasoning
outcome. -/
theorem choose_parity_canonical (mode : Mode) (llm : LLMResult)
    (coin : Bool) :
    ∃ c, StrategyEngine.choose_parity mode llm coin = Except.ok c ∧
      (c = "even" ∨ c = "odd") := by
  cases mode with
  | random => exact ⟨randomChoice coin, rfl, randomChoice_canonical coin⟩
  | llm =>
    cases llm with
    | timeout => exact ⟨randomChoice coin, rfl, randomChoice_canonical coin⟩
    | failure e => exact ⟨randomChoice coin, rfl, randomChoice_canonical coin⟩
    | ok v =>
      by_cases hv : (v == "even" || v == "odd") = true
      · refine ⟨v, ?_, ?_⟩
        · simp [StrategyEngine.choose_parity, chooseParityTry, hv]
        · simpa using hv
      · refine ⟨randomChoice coin, ?_, randomChoice_canonical coin⟩
        simp [StrategyEngine.choose_parity, chooseParityTry, hv]
  | hybrid =>
    cases llm with
    | timeout => exact ⟨randomChoice coin, rfl, randomChoice_canonical coin⟩
    | failure e => exact ⟨randomChoice coin, rfl, randomChoice_canonical coin⟩
    | ok v =>
      by_cases hv : (v == "even" || v == "odd") = true
      · refine ⟨v, ?_, ?_⟩
        · simp [StrategyEngine.choose_parity, chooseParityTry, hv]
        · simpa using hv
      · refine ⟨randomChoice coin, ?_, randomChoice_canonical coin⟩
        simp [StrategyEngine.choose_parity, chooseParityTry, hv]

/-- Counterexample for C1: in reasoning-only mode a timeout of the
reasoning call, and likewise a service exception, are answered with a
normal random choice instead of being propagated to the caller as an
error. -/
theorem llm_mode_swallows_failure_counterexample :
    StrategyEngine.choose_parity Mode.llm LLMResult.timeout true
        = Except.ok "even" ∧
    StrategyEngine.choose_parity Mode.llm (LLMResult.failure "service unavailable") true
        = Except.ok "even" := by
  constructor <;> rfl

/-- C1 (amended): in reasoning-only mode no failure is propagated: a
timeout, a transport or service exception, and a value outside the
canonical set all make the engine return a uniformly random outcome,
because the inner re-raise for this mode is caught by the outer
`except Exception` handler, which substitutes a random choice. -/
theorem llm_mode_never_propagates (coin : Bool) :
    StrategyEngine.choose_parity Mode.llm LLMResult.timeout coin
        = Except.ok (randomChoice coin) ∧
    (∀ e, StrategyEngine.choose_parity Mode.llm (LLMResult.failure e) coin
        = Except.ok (randomChoice coin)) ∧
    (∀ v, v ≠ "even" → v ≠ "odd" →
      StrategyEngine.choose_parity Mode.llm (LLMResult.ok v) coin
        = Except.ok (randomChoice coin)) := by
  refine ⟨rfl, fun e => rfl, fun v h1 h2 => ?_⟩
  have hv : (v == "even" || v == "odd") = false := by
    simp [h1, h2]
  simp [StrategyEngine.choose_parity, chooseParityTry, hv]

/-- Witness for the amended C1 at concrete failing inputs. -/
theorem llm_mode_never_propagates_witness :
    StrategyEngine.choose_parity Mode.llm (LLMResult.ok "Even") false
        = Except.ok (randomChoice false) ∧
    StrategyEngine.choose_parity Mode.llm (LLMResult.failure "boom") false
        = Except.ok (randomChoice false) :=
  ⟨(llm_mode_never_propagates false).2.2 "Even" (by decide) (by decide),
   (llm_mode_never_propagates false).2.1 "boom"⟩

/-! ## Protocol Message Builder model (`protocol.py`) -/

/-- Protocol version constant of `ProtocolMessageBuilder`. -/
def PROTOCOL_VERSION : String := "league.v2"

/-- Validation failures raised by the builder as Python `ValueError`.
The exception message of the missing-token error embeds the message
type (`"auth_token is required for <message_type> but not set"`), and
the message of the choice error embeds the offending value
(`"parity_choice must be lowercase ... got: <choice>"`); the payloads
carry exactly those fields. -/
inductive ProtocolError
  | authTokenRequired (message_type : String)
  | invalidParityChoice (got : String)
  deriving DecidableEq, Repr

/-- State of `ProtocolMessageBuilder`: a player id and an optional
authentication token. -/
structure ProtocolMessageBuilder where
  player_id : String
  auth_token : Option String
  deriving DecidableEq, Repr

/-- Builder produced by a successful `__init__`: no token yet. -/
def ProtocolMessageBuilder.new (player_id : String) :
    ProtocolMessageBuilder :=
  { player_id := player_id, auth_token := none }

/-- Constructor including the `__init__` validation of `player_id`. -/
def ProtocolMessageBuilder.make (player_id : String) :
    Except String ProtocolMessageBuilder :=
  if player_id = "" then .error "player_id cannot be None or empty"
  else .ok (ProtocolMessageBuilder.new player_id)

/-- Model of `ProtocolMessageBuilder.set_auth_token`. -/
def ProtocolMessageBuilder.set_auth_token (b : ProtocolMessageBuilder)
    (auth_token : String) : ProtocolMessageBuilder :=
  { b with auth_token := some auth_token }

/-- Python truthiness test `not self.auth_token`: an unset token and an
empty-string token are both falsy. -/
def tokenFalsy : Option String → Bool
  | none => true
  | some t => t == ""

/-- Message envelope assembled by `_build_envelope`.  The timestamp
produced by `utc_now()` is passed in as `ts`; the `auth_token` key is
present exactly when `include_auth` holds. -/
structure Envelope where
  protocol : String
  message_type : String
  sender : String
  timestamp : String
  conversation_id : String
  auth_token : Option String
  deriving DecidableEq, Repr

/-- Model of `ProtocolMessageBuilder._build_envelope`: raises when the
token is required but falsy, naming the message type. -/
def ProtocolMessageBuilder.build_envelope (b : ProtocolMessageBuilder)
    (message_type conversation_id : String) (include_auth : Bool)
    (ts : String) : Except ProtocolError Envelope :=
  if include_auth && tokenFalsy b.auth_token then
    .error (.authTokenRequired message_type)
  else
    .ok { protocol := PROTOCOL_VERSION
          message_type := message_type
          sender := "player:" ++ b.player_id
          timestamp := ts
          conversation_id := conversation_id
          auth_token := if include_auth then b.auth_token else none }

/-- GAME_JOIN_ACK message body. -/
structure GameJoinAckMsg where
  envelope : Envelope
  match_id : String
  player_id : String
  arrival_timestamp : String
  accept : Bool
  deriving DecidableEq, Repr

/-- CHOOSE_PARITY_RESPONSE message body. -/
structure ChooseParityResponseMsg where
  envelope : Envelope
  match_id : String
  player_id : String
  parity_choice : String
  deriving DecidableEq, Repr

/-- RESULT_ACKNOWLEDGMENT message body. -/
structure ResultAckMsg where
  envelope : Envelope
  match_id : String
  status : String
  deriving DecidableEq, Repr

/-- Model of `build_game_join_ack` (auth required; the arrival
timestamp is a second `utc_now()` reading). -/
def ProtocolMessageBuilder.build_game_join_ack (b : ProtocolMessageBuilder)
    (conversation_id match_id : String) (accept : Bool)
    (ts arrival_ts : String) : Except ProtocolError GameJoinAckMsg :=
  match b.build_envelope "GAME_JOIN_ACK" conversation_id true ts with
  | .error e => .error e
  | .ok env =>
    .ok { envelope := env
          match_id := match_id
          player_id := b.player_id
          arrival_timestamp := arrival_ts
          accept := accept }

/-- Model of `build_choose_parity_response`: the canonical-set check on
`parity_choice` runs first and fails fast, naming the offending value;
only then is the authenticated envelope built. -/
def ProtocolMessageBuilder.build_choose_parity_response
    (b : ProtocolMessageBuilder) (conversation_id match_id : String)
    (parity_choice : String) (ts : String) :
    Except ProtocolError ChooseParityResponseMsg :=
  if !(parity_choice == "even" || parity_choice == "odd") then
    .error (.invalidParityChoice parity_choice)
  else
    match b.build_envelope "CHOOSE_PARITY_RESPONSE" conversation_id true ts with
    | .error e => .error e
    | .ok env =>
      .ok { envelope := env
            match_id := match_id
            player_id := b.player_id
            parity_choice := parity_choice }

/-- Model of `build_result_acknowledgment` (auth required). -/
def ProtocolMessageBuilder.build_result_acknowledgment
    (b : ProtocolMessageBuilder) (conversation_id match_id status : String)
    (ts : String) : Except ProtocolError ResultAckMsg :=
  match b.build_envelope "RESULT_ACKNOWLEDGMENT" conversation_id true ts with
  | .error e => .error e
  | .ok env =>
    .ok { envelope := env, match_id := match_id, status := status }

/-- Model of the module-level helper `validate_parity_choice`. -/
def validate_parity_choice (choice : String) : Bool :=
  choice == "even" || choice == "odd"

/-- Counterexample for C6: after `set_auth_token("")` a token has been
set, yet building an authenticated message still raises the
configuration error, because `_build_envelope` tests Python truthiness
(`not self.auth_token`) and the empty string is falsy.  The claim as
stated, which promises success after `set_auth_token(t)` for every
token `t`, therefore fails at `t = ""`. -/
theorem empty_token_still_raises_counterexample :
    ProtocolMessageBuilder.build_game_join_ack
        ((ProtocolMessageBuilder.new "P01").set_auth_token "")
        "conv-001" "R1M1" true "t1" "t2"
      = Except.error (ProtocolError.authTokenRequired "GAME_JOIN_ACK") := rfl

/-- C6 (amended): with a falsy token (in particular before any
`set_auth_token` call), each of the three authenticated builders raises
the configuration error naming its message type; after
`set_auth_token(t)` with a nonempty token `t`, the same calls succeed
and the auth field of each built message equals `t`. -/
theorem auth_token_gating (b : ProtocolMessageBuilder)
    (conversation_id match_id status : String) (accept : Bool)
    (ts arrival_ts : String) :
    (tokenFalsy b.auth_token = true →
      b.build_game_join_ack conversation_id match_id accept ts arrival_ts
          = Except.error (ProtocolError.authTokenRequired "GAME_JOIN_ACK") ∧
      b.build_choose_parity_response conversation_id match_id "even" ts
          = Except.error (ProtocolError.authTokenRequired "CHOOSE_PARITY_RESPONSE") ∧
      b.build_result_acknowledgment conversation_id match_id status ts
          = Except.error (ProtocolError.authTokenRequired "RESULT_ACKNOWLEDGMENT")) ∧
    (∀ t : String, t ≠ "" →
      ((b.set_auth_token t).build_game_join_ack
            conversation_id match_id accept ts arrival_ts).map
          (fun m => m.envelope.auth_token) = Except.ok (some t) ∧
      ((b.set_auth_token t).build_choose_parity_response
            conversation_id match_id "even" ts).map
          (fun m => m.envelope.auth_token) = Except.ok (some t) ∧
      ((b.set_auth_token t).build_result_acknowledgment
            conversation_id match_id status ts).map
          (fun m => m.envelope.auth_token) = Except.ok (some t)) := by
  constructor
  · intro hfalsy
    refine ⟨?_, ?_, ?_⟩ <;>
      simp [ProtocolMessageBuilder.build_game_join_ack,
        ProtocolMessageBuilder.build_choose_parity_response,
        ProtocolMessageBuilder.build_result_acknowledgment,
        ProtocolMessageBuilder.build_envelope, hfalsy]
  · intro t ht
    have htok : tokenFalsy (some t) = false := by
      simp [tokenFalsy, ht]
    refine ⟨?_, ?_, ?_⟩ <;>
      simp [ProtocolMessageBuilder.build_game_join_ack,
        ProtocolMessageBuilder.build_choose_parity_response,
        ProtocolMessageBuilder.build_result_acknowledgment,
        ProtocolMessageBuilder.build_envelope, htok, Except.map,
        ProtocolMessageBuilder.set_auth_token]

/-- Witness for the amended C6: a fresh builder fails on all three
authenticated messages, and after setting the nonempty token
`"token-12345"` the GAME_JOIN_ACK succeeds carrying that token. -/
theorem auth_token_gating_witness :
    (tokenFalsy (ProtocolMessageBuilder.new "P01").auth_token = true ∧
      (ProtocolMessageBuilder.new "P01").build_game_join_ack
          "conv-001" "R1M1" true "t1" "t2"
        = Except.error (ProtocolError.authTokenRequired "GAME_JOIN_ACK")) ∧
    (((ProtocolMessageBuilder.new "P01").set_auth_token
          "token-12345").build_game_join_ack
        "conv-001" "R1M1" true "t1" "t2").map
      (fun m => m.envelope.auth_token) = Except.ok (some "token-12345") :=
  ⟨⟨rfl, ((auth_token_gating (ProtocolMessageBuilder.new "P01") "conv-001"
      "R1M1" "acknowledged" true "t1" "t2").1 rfl).1⟩,
   ((auth_token_gating (ProtocolMessageBuilder.new "P01") "conv-001"
      "R1M1" "acknowledged" true "t1" "t2").2 "token-12345" (by decide)).1⟩

/-- C7: `build_choose_parity_response` rejects every choice outside the
canonical lowercase set with a validation error carrying the offending
value, and with a truthy token it succeeds on `"even"` and `"odd"`,
echoing the choice unchanged in the `parity_choice` field. -/
theorem choose_parity_response_validation (b : ProtocolMessageBuilder)
    (conversation_id match_id ts : String) :
    (∀ c, c ≠ "even" → c ≠ "odd" →
      b.build_choose_parity_response conversation_id match_id c ts
        = Except.error (ProtocolError.invalidParityChoice c)) ∧
    (tokenFalsy b.auth_token = false →
      ∀ c, c = "even" ∨ c = "odd" →
        (b.build_choose_parity_response conversation_id match_id c ts).map
          (fun m => m.parity_choice) = Except.ok c) := by
  constructor
  · intro c h1 h2
    have hv : (c == "even" || c == "odd") = false := by simp [h1, h2]
    simp [ProtocolMessageBuilder.build_choose_parity_response, hv]
  · intro htok c hc
    have hv : (c == "even" || c == "odd") = true := by
      rcases hc with rfl | rfl <;> simp
    simp [ProtocolMessageBuilder.build_choose_parity_response,
      ProtocolMessageBuilder.build_envelope, hv, htok, Except.map]

/-- Witness for C7 at the four offending values named by the spec and
at the two canonical ones. -/
theorem choose_parity_response_validation_witness :
    ((ProtocolMessageBuilder.new "P01").build_choose_parity_response
        "c1" "R1M1" "Even" "t"
      = Except.error (ProtocolError.invalidParityChoice "Even")) ∧
    ((ProtocolMessageBuilder.new "P01").build_choose_parity_response
        "c1" "R1M1" "ODD" "t"
      = Except.error (ProtocolError.invalidParityChoice "ODD")) ∧
    ((ProtocolMessageBuilder.new "P01").build_choose_parity_response
        "c1" "R1M1" "" "t"
      = Except.error (ProtocolError.invalidParityChoice "")) ∧
    ((ProtocolMessageBuilder.new "P01").build_choose_parity_response
        "c1" "R1M1" "left" "t"
      = Except.error (ProtocolError.invalidParityChoice "left")) ∧
    ((((ProtocolMessageBuilder.new "P01").set_auth_token
          "tok").build_choose_parity_response "c1" "R1M1" "even" "t").map
        (fun m => m.parity_choice) = Except.ok "even") ∧
    ((((ProtocolMessageBuilder.new "P01").set_auth_token
          "tok").build_choose_parity_response "c1" "R1M1" "odd" "t").map
        (fun m => m.parity_choice) = Except.ok "odd") :=
  ⟨(choose_parity_response_validation (ProtocolMessageBuilder.new "P01")
      "c1" "R1M1" "t").1 "Even" (by decide) (by decide),
   (choose_parity_response_validation (ProtocolMessageBuilder.new "P01")
      "c1" "R1M1" "t").1 "ODD" (by decide) (by decide),
   (choose_parity_response_validation (ProtocolMessageBuilder.new "P01")
      "c1" "R1M1" "t").1 "" (by decide) (by decide),
   (choose_parity_response_validation (ProtocolMessageBuilder.new "P01")
      "c1" "R1M1" "t").1 "left" (by decide) (by decide),
   (choose_parity_response_validation
      ((ProtocolMessageBuilder.new "P01").set_auth_token "tok")
      "c1" "R1M1" "t").2 rfl "even" (Or.inl rfl),
   (choose_parity_response_validation
      ((ProtocolMessageBuilder.new "P01").set_auth_token "tok")
      "c1" "R1M1" "t").2 rfl "odd" (Or.inr rfl)⟩

/-! ## Tool dispatch model (`handlers.py`) -/

/-- Outcome of the awaited Decision Engine call as seen by the
dispatch handler `ToolHandlers.choose_parity`: a value, an
`asyncio.TimeoutError`, or some other exception. -/
inductive EngineOutcome
  | timeout
  | failure (msg : String)
  | value (v : String)
  deriving DecidableEq, Repr

/-- Errors leaving the dispatch handler: builder validation errors
re-raised by its `except Exception` handler, or the engine exception it
re-raises. -/
inductive HandlerError
  | protocolError (e : ProtocolError)
  | engineError (msg : String)
  deriving DecidableEq, Repr

/-- Model of `ToolHandlers.choose_parity`.  On a returned value, a
defensive check substitutes `"even"` for anything outside the canonical
set and the response is built; on an `asyncio.TimeoutError` the
emergency fallback builds a response with `"even"`; on any other
exception the handler logs and re-raises (`except Exception: ...
raise`), so the failure propagates instead of being substituted. -/
def ToolHandlers.choose_parity (b : ProtocolMessageBuilder)
    (engine : EngineOutcome) (conversation_id match_id ts : String) :
    Except HandlerError ChooseParityResponseMsg :=
  match engine with
  | .value v =>
    let parity_choice := if v == "even" || v == "odd" then v else "even"
    match b.build_choose_parity_response conversation_id match_id
        parity_choice ts with
    | .ok m => .ok m
    | .error e => .error (.protocolError e)
  | .timeout =>
    match b.build_choose_parity_response conversation_id match_id
        "even" ts with
    | .ok m => .ok m
    | .error e => .error (.protocolError e)
  | .failure e => .error (.engineError e)

/-- Counterexample for C2: a generic engine failure that the engine did
not recover from internally is propagated by the dispatch handler as an
error — no syntactically valid choice response is produced, even with a
valid token set. -/
theorem dispatch_propagates_engine_failure_counterexample :
    ToolHandlers.choose_parity
        ((ProtocolMessageBuilder.new "P01").set_auth_token "token-12345")
        (EngineOutcome.failure "engine crashed") "conv-001" "R1M1" "t"
      = Except.error (HandlerError.engineError "engine crashed") := rfl

/-- C2 (amended): with a truthy token, the dispatch-level emergency
substitution applies exactly to a value outside the canonical set
(replaced by `"even"`) and to an `asyncio.TimeoutError` (answered with
`"even"`); any other engine exception is re-raised and propagates to
the server layer as an error rather than being substituted. -/
theorem dispatch_fallback_scope (b : ProtocolMessageBuilder)
    (conversation_id match_id ts : String)
    (htok : tokenFalsy b.auth_token = false) :
    (∀ v, (ToolHandlers.choose_parity b (EngineOutcome.value v)
            conversation_id match_id ts).map (fun m => m.parity_choice)
        = Except.ok (if v == "even" || v == "odd" then v else "even")) ∧
    ((ToolHandlers.choose_parity b EngineOutcome.timeout
          conversation_id match_id ts).map (fun m => m.parity_choice)
        = Except.ok "even") ∧
    (∀ e, ToolHandlers.choose_parity b (EngineOutcome.failure e)
          conversation_id match_id ts
        = Except.error (HandlerError.engineError e)) := by
  refine ⟨fun v => ?_, ?_, fun e => rfl⟩
  · by_cases hv : (v == "even" || v == "odd") = true
    · simp [ToolHandlers.choose_parity,
        ProtocolMessageBuilder.build_choose_parity_response,
        ProtocolMessageBuilder.build_envelope, hv, htok, Except.map]
    · simp only [Bool.not_eq_true] at hv
      simp [ToolHandlers.choose_parity,
        ProtocolMessageBuilder.build_choose_parity_response,
        ProtocolMessageBuilder.build_envelope, hv, htok, Except.map]
  · simp [ToolHandlers.choose_parity,
      ProtocolMessageBuilder.build_choose_parity_response,
      ProtocolMessageBuilder.build_envelope, htok, Except.map]

/-- Witness for the amended C2 at a concrete builder with a token. -/
theorem dispatch_fallback_scope_witness :
    ((ToolHandlers.choose_parity
          ((ProtocolMessageBuilder.new "P01").set_auth_token "tok")
          (EngineOutcome.value "EVEN") "c1" "R1M1" "t").map
        (fun m => m.parity_choice)
      = Except.ok (if "EVEN" == "even" || "EVEN" == "odd" then "EVEN" else "even")) ∧
    (∀ e, ToolHandlers.choose_parity
          ((ProtocolMessageBuilder.new "P01").set_auth_token "tok")
          (EngineOutcome.failure e) "c1" "R1M1" "t"
        = Except.error (HandlerError.engineError e)) :=
  ⟨(dispatch_fallback_scope
      ((ProtocolMessageBuilder.new "P01").set_auth_token "tok")
      "c1" "R1M1" "t" rfl).1 "EVEN",
   (dispatch_fallback_scope
      ((ProtocolMessageBuilder.new "P01").set_auth_token "tok")
      "c1" "R1M1" "t" rfl).2.2⟩

/-! ## Timestamp Authority model (`timestamp.py`)

`TimestampUtil.get_utc_now` evaluates
`datetime.now(timezone.utc).isoformat().replace("+00:00", "Z")`.  The
wall clock reading is passed in as a `PyDatetime`.  Following CPython,
`isoformat()` on an aware UTC datetime prints
`YYYY-MM-DDTHH:MM:SS[.ffffff]+00:00`, where the fractional part is
omitted exactly when `microsecond == 0`, and `str.replace` substitutes
every occurrence of `"+00:00"`.  `validate_timestamp` combines the
ISO-8601 regex of the module with a parse via `rstrip("Z")` and
`datetime.fromisoformat` (Python 3.11 semantics: at least one
fractional digit when the dot is present, component range checks,
years 1 to 9999). -/

/-- Clock reading: the components of `datetime.now(timezone.utc)`. -/
structure PyDatetime where
  year : Nat
  month : Nat
  day : Nat
  hour : Nat
  minute : Nat
  second : Nat
  microsecond : Nat
  deriving DecidableEq, Repr

/-- Gregorian leap year rule used by `datetime`. -/
def isLeapYear (y : Nat) : Bool :=
  (y % 4 == 0 && y % 100 != 0) || y % 400 == 0

/-- Number of days of a month, as `datetime` validates them. -/
def daysInMonth (y m : Nat) : Nat :=
  if m = 2 then (if isLeapYear y then 29 else 28)
  else if m = 4 ∨ m = 6 ∨ m = 9 ∨ m = 11 then 30
  else 31

/-- Component ranges of a representable `datetime` value. -/
def validInstant (t : PyDatetime) : Prop :=
  1 ≤ t.year ∧ t.year ≤ 9999 ∧ 1 ≤ t.month ∧ t.month ≤ 12 ∧
  1 ≤ t.day ∧ t.day ≤ daysInMonth t.year t.month ∧
  t.hour ≤ 23 ∧ t.minute ≤ 59 ∧ t.second ≤ 59 ∧ t.microsecond ≤ 999999

instance (t : PyDatetime) : Decidable (validInstant t) := by
  unfold validInstant
  infer_instance

/-- Decimal digit character, as printed by the zero-padded decimal
formatting of `isoformat`. -/
def digitChar (n : Nat) : Char := Char.ofNat (48 + n)

/-- Numeric value of a digit character, as read back by parsing. -/
def charVal (c : Char) : Nat := c.toNat - 48

/-- Two-digit zero-padded decimal rendering (`%02d`). -/
def pad2L (n : Nat) : List Char :=
  [digitChar (n / 10 % 10), digitChar (n % 10)]

/-- Four-digit zero-padded decimal rendering (`%04d`). -/
def pad4L (n : Nat) : List Char :=
  [digitChar (n / 1000 % 10), digitChar (n / 100 % 10),
   digitChar (n / 10 % 10), digitChar (n % 10)]

/-- Six-digit zero-padded decimal rendering (`%06d`). -/
def pad6L (n : Nat) : List Char :=
  [digitChar (n / 100000 % 10), digitChar (n / 10000 % 10),
   digitChar (n / 1000 % 10), digitChar (n / 100 % 10),
   digitChar (n / 10 % 10), digitChar (n % 10)]

/-- Fractional-second part of `isoformat`: printed only when the
microsecond component is nonzero. -/
def fracL (micro : Nat) : List Char :=
  if micro = 0 then [] else '.' :: pad6L micro

/-- Date-and-time core of the `isoformat` output, before the UTC
offset. -/
def isoCore (t : PyDatetime) : List Char :=
  pad4L t.year ++ ['-'] ++ pad2L t.month ++ ['-'] ++ pad2L t.day
    ++ ['T'] ++ pad2L t.hour ++ [':'] ++ pad2L t.minute ++ [':']
    ++ pad2L t.second ++ fracL t.microsecond

/-- UTC offset suffix printed by `isoformat` for `timezone.utc`. -/
def offsetL : List Char := ['+', '0', '0', ':', '0', '0']

/-- Full `datetime.now(timezone.utc).isoformat()` output. -/
def pyIsoformatUTC (t : PyDatetime) : List Char := isoCore t ++ offsetL

/-- Test whether a character list starts with the five characters
`00:00` (the pattern tail after the leading plus). -/
def startsWithOffsetTail : List Char → Bool
  | '0' :: '0' :: ':' :: '0' :: '0' :: _ => true
  | _ => false

/-- Model of `str.replace("+00:00", "Z")`: scan left to right and
substitute each non-overlapping occurrence of the pattern. -/
def replacePlus00 : List Char → List Char
  | [] => []
  | c :: rest =>
    if c = '+' ∧ startsWithOffsetTail rest then
      'Z' :: replacePlus00 (rest.drop 5)
    else c :: replacePlus00 rest
termination_by l => l.length
decreasing_by all_goals simp_wf <;> omega

/-- Model of `TimestampUtil.get_utc_now` at clock reading `t`. -/
def TimestampUtil.get_utc_now (t : PyDatetime) : String :=
  String.mk (replacePlus00 (pyIsoformatUTC t))

/-- Tail matcher for the regex: zero or more digits followed by the
final literal `Z`. -/
def digitsThenZ : List Char → Bool
  | [] => false
  | [c] => c == 'Z'
  | c :: rest => c.isDigit && digitsThenZ rest

/-- Matcher for the optional-fraction tail `(\.\d+)?Z$` of the
module regex: either the bare `Z`, or a dot followed by at least one
digit and then `Z`. -/
def isoTail : List Char → Bool
  | [] => false
  | [c] => c == 'Z'
  | c :: r1 :: rest => (c == '.') && r1.isDigit && digitsThenZ (r1 :: rest)

/-- Matcher for the full `ISO8601_PATTERN` regex of `timestamp.py`. -/
def isoMatch : List Char → Bool
  | y1 :: y2 :: y3 :: y4 :: a1 :: mo1 :: mo2 :: a2 :: d1 :: d2 :: a3
      :: h1 :: h2 :: a4 :: mi1 :: mi2 :: a5 :: s1 :: s2 :: rest =>
    y1.isDigit && y2.isDigit && y3.isDigit && y4.isDigit && (a1 == '-') &&
    mo1.isDigit && mo2.isDigit && (a2 == '-') && d1.isDigit && d2.isDigit &&
    (a3 == 'T') && h1.isDigit && h2.isDigit && (a4 == ':') && mi1.isDigit &&
    mi2.isDigit && (a5 == ':') && s1.isDigit && s2.isDigit && isoTail rest
  | _ => false

/-- Regex test `ISO8601_PATTERN.match(timestamp_str)`. -/
def matchesISO8601 (s : String) : Bool := isoMatch s.toList

/-- Model of `str.rstrip("Z")`: remove the maximal trailing run of
`Z` characters. -/
def rstripZ : List Char → List Char
  | [] => []
  | c :: rest =>
    let r := rstripZ rest
    if r = [] ∧ c = 'Z' then [] else c :: r

/-- Fractional part acceptance of `datetime.fromisoformat` after the
seconds (Python 3.11: a dot must be followed by at least one digit and
only digits). -/
def fracOk : List Char → Bool
  | [] => true
  | c :: ds => (c == '.') && !ds.isEmpty && ds.all (fun x => x.isDigit)

/-- Parse-and-range-check performed by `_parse_timestamp` via
`datetime.fromisoformat` on the `rstrip("Z")` result: fixed-width
date and time fields, then component range validation. -/
def fromisoformatOk : List Char → Bool
  | y1 :: y2 :: y3 :: y4 :: a1 :: mo1 :: mo2 :: a2 :: d1 :: d2 :: a3
      :: h1 :: h2 :: a4 :: mi1 :: mi2 :: a5 :: s1 :: s2 :: rest =>
    y1.isDigit && y2.isDigit && y3.isDigit && y4.isDigit && (a1 == '-') &&
    mo1.isDigit && mo2.isDigit && (a2 == '-') && d1.isDigit && d2.isDigit &&
    (a3 == 'T') && h1.isDigit && h2.isDigit && (a4 == ':') && mi1.isDigit &&
    mi2.isDigit && (a5 == ':') && s1.isDigit && s2.isDigit &&
    fracOk rest &&
    (let year := ((charVal y1 * 10 + charVal y2) * 10 + charVal y3) * 10
        + charVal y4
     let month := charVal mo1 * 10 + charVal mo2
     let day := charVal d1 * 10 + charVal d2
     let hour := charVal h1 * 10 + charVal h2
     let minute := charVal mi1 * 10 + charVal mi2
     let second := charVal s1 * 10 + charVal s2
     decide (1 ≤ year) && decide (1 ≤ month) && decide (month ≤ 12) &&
     decide (1 ≤ day) && decide (day ≤ daysInMonth year month) &&
     decide (hour ≤ 23) && decide (minute ≤ 59) && decide (second ≤ 59))
  | _ => false

/-- Model of `TimestampUtil.validate_timestamp`: an empty input raises
`ValueError`; otherwise the result is the regex match combined with
parse success (any parse failure is caught and turned into `False`). -/
def TimestampUtil.validate_timestamp (s : String) : Except String Bool :=
  if s = "" then .error "Timestamp string cannot be None or empty"
  else .ok (matchesISO8601 s && fromisoformatOk (rstripZ s.toList))

/-- Facts about the ten digit characters, by enumeration. -/
theorem digit_facts : ∀ k : Nat, k < 10 →
    ((digitChar k).isDigit = true ∧ charVal (digitChar k) = k ∧
     (digitChar k == '+') = false ∧ (digitChar k == 'Z') = false ∧
     digitChar k ≠ '+' ∧ digitChar k ≠ 'Z') := by decide

/-- Remainders mod ten are digit values. -/
theorem mod10_lt (n : Nat) : n % 10 < 10 := Nat.mod_lt n (by decide)

/-- Digit characters pass `isDigit`. -/
theorem isDigit_digitChar_mod (n : Nat) :
    (digitChar (n % 10)).isDigit = true :=
  (digit_facts _ (mod10_lt n)).1

/-- Parsing a printed digit returns its value. -/
theorem charVal_digitChar_mod (n : Nat) :
    charVal (digitChar (n % 10)) = n % 10 :=
  (digit_facts _ (mod10_lt n)).2.1

/-- Digit characters are not the plus sign (Boolean form). -/
theorem digitChar_mod_beq_plus (n : Nat) :
    (digitChar (n % 10) == '+') = false :=
  (digit_facts _ (mod10_lt n)).2.2.1

/-- Digit characters are not `Z` (Boolean form). -/
theorem digitChar_mod_beq_Z (n : Nat) :
    (digitChar (n % 10) == 'Z') = false :=
  (digit_facts _ (mod10_lt n)).2.2.2.1

/-- Digit characters are not the plus sign. -/
theorem digitChar_mod_ne_plus (n : Nat) : digitChar (n % 10) ≠ '+' :=
  (digit_facts _ (mod10_lt n)).2.2.2.2.1

/-- Digit characters are not `Z`. -/
theorem digitChar_mod_ne_Z (n : Nat) : digitChar (n % 10) ≠ 'Z' :=
  (digit_facts _ (mod10_lt n)).2.2.2.2.2

/-- No character of the isoformat core is a plus sign or a `Z`. -/
theorem isoCore_all_safe (t : PyDatetime) :
    (isoCore t).all (fun c => !(c == '+') && !(c == 'Z')) = true := by
  by_cases hm : t.microsecond = 0 <;>
    simp [isoCore, pad4L, pad2L, pad6L, fracL, hm,
      digitChar_mod_beq_plus, digitChar_mod_beq_Z]

/-- Membership form: the isoformat core contains no plus sign. -/
theorem isoCore_no_plus (t : PyDatetime) : ∀ c ∈ isoCore t, c ≠ '+' := by
  intro c hc
  have h := List.all_eq_true.1 (isoCore_all_safe t) c hc
  simp at h
  exact h.1

/-- Membership form: the isoformat core contains no `Z`. -/
theorem isoCore_no_Z (t : PyDatetime) : ∀ c ∈ isoCore t, c ≠ 'Z' := by
  intro c hc
  have h := List.all_eq_true.1 (isoCore_all_safe t) c hc
  simp at h
  exact h.2

/-- Substituting `"+00:00"` in a string that is a plus-free core
followed by the UTC offset yields the core followed by `Z`. -/
theorem replacePlus00_no_plus (l : List Char) (h : ∀ c ∈ l, c ≠ '+') :
    replacePlus00 (l ++ offsetL) = l ++ ['Z'] := by
  induction l with
  | nil => simp [offsetL, replacePlus00, startsWithOffsetTail]
  | cons c rest ih =>
    have hc : c ≠ '+' := h c (by simp)
    have hrest : ∀ x ∈ rest, x ≠ '+' := fun x hx => h x (by simp [hx])
    simp only [List.cons_append, replacePlus00, List.append_eq]
    rw [if_neg (fun hand => hc hand.1)]
    rw [ih hrest]

/-- Stripping trailing `Z` characters from a `Z`-free core followed by
one `Z` returns the core. -/
theorem rstripZ_no_Z (l : List Char) (h : ∀ c ∈ l, c ≠ 'Z') :
    rstripZ (l ++ ['Z']) = l := by
  induction l with
  | nil => rfl
  | cons c rest ih =>
    have hc : c ≠ 'Z' := h c (by simp)
    have hrest : ∀ x ∈ rest, x ≠ 'Z' := fun x hx => h x (by simp [hx])
    simp only [List.cons_append, rstripZ, List.append_eq]
    rw [ih hrest]
    rw [if_neg (fun hand => hc hand.2)]

/-- Closed form of `get_utc_now`: the replace call rewrites the
trailing offset into the literal `Z`. -/
theorem get_utc_now_eq (t : PyDatetime) :
    TimestampUtil.get_utc_now t = String.mk (isoCore t ++ ['Z']) := by
  unfold TimestampUtil.get_utc_now pyIsoformatUTC
  rw [replacePlus00_no_plus _ (isoCore_no_plus t)]

/-- Character list of the produced timestamp. -/
theorem get_utc_now_toList (t : PyDatetime) :
    (TimestampUtil.get_utc_now t).toList = isoCore t ++ ['Z'] := by
  rw [get_utc_now_eq]
  rfl

/-- The produced timestamp is never the empty string. -/
theorem get_utc_now_ne_empty (t : PyDatetime) :
    TimestampUtil.get_utc_now t ≠ "" := by
  intro h
  have h2 := congrArg String.toList h
  rw [get_utc_now_toList] at h2
  simp at h2

/-- The produced timestamp matches the ISO-8601 regex of the module. -/
theorem isoMatch_isoCore (t : PyDatetime) :
    isoMatch (isoCore t ++ ['Z']) = true := by
  by_cases hm : t.microsecond = 0 <;>
    simp [isoCore, pad4L, pad2L, pad6L, fracL, hm, isoMatch, isoTail,
      digitsThenZ, isDigit_digitChar_mod]

/-- Upper bound on month lengths. -/
theorem daysInMonth_le (y m : Nat) : daysInMonth y m ≤ 31 := by
  unfold daysInMonth
  split
  · split <;> omega
  · split <;> omega

/-- The stripped core of a produced timestamp parses under the
`fromisoformat` model whenever the clock reading is representable. -/
theorem fromisoformatOk_isoCore (t : PyDatetime) (h : validInstant t) :
    fromisoformatOk (isoCore t) = true := by
  obtain ⟨hy1, hy2, hmo1, hmo2, hd1, hd2, hh, hmi, hs, hmu⟩ := h
  have hd31 := daysInMonth_le t.year t.month
  have hy : ((t.year / 1000 % 10 * 10 + t.year / 100 % 10) * 10
      + t.year / 10 % 10) * 10 + t.year % 10 = t.year := by omega
  have hmo : t.month / 10 % 10 * 10 + t.month % 10 = t.month := by omega
  by_cases hm : t.microsecond = 0 <;>
    simp [isoCore, pad4L, pad2L, pad6L, fracL, hm, fromisoformatOk, fracOk,
      isDigit_digitChar_mod, charVal_digitChar_mod, hy, hmo] <;>
    omega

/-- Counterexample for C8: at a clock reading whose microsecond
component is zero (here 2025-01-15 10:30:00.000000 UTC), `isoformat`
omits the fractional part, so the produced timestamp carries no
sub-second precision — the claim that every produced timestamp includes
it fails at this instant. -/
theorem timestamp_no_subsecond_counterexample :
    TimestampUtil.get_utc_now ⟨2025, 1, 15, 10, 30, 0, 0⟩
        = "2025-01-15T10:30:00Z" ∧
    ('.' ∈ (TimestampUtil.get_utc_now ⟨2025, 1, 15, 10, 30, 0, 0⟩).toList
      → False) := by
  constructor
  · rw [get_utc_now_eq]
    decide
  · rw [get_utc_now_toList]
    decide

/-- C8 (amended): for every representable clock reading, the timestamp
produced by `get_utc_now` validates as true under `validate_timestamp`,
ends in the literal `Z`, and contains no `+` character; it includes
sub-second (fractional) precision whenever the microsecond component of
the captured instant is nonzero (when the microsecond component is
zero, `isoformat` omits the fraction). -/
theorem timestamp_invariants (t : PyDatetime) (h : validInstant t) :
    TimestampUtil.validate_timestamp (TimestampUtil.get_utc_now t)
        = Except.ok true ∧
    (TimestampUtil.get_utc_now t).toList.getLast? = some 'Z' ∧
    '+' ∉ (TimestampUtil.get_utc_now t).toList ∧
    (t.microsecond ≠ 0 → '.' ∈ (TimestampUtil.get_utc_now t).toList) := by
  refine ⟨?_, ?_, ?_, ?_⟩
  · unfold TimestampUtil.validate_timestamp matchesISO8601
    rw [if_neg (get_utc_now_ne_empty t), get_utc_now_toList]
    rw [rstripZ_no_Z _ (isoCore_no_Z t)]
    rw [isoMatch_isoCore t, fromisoformatOk_isoCore t h]
    rfl
  · rw [get_utc_now_toList]
    exact List.getLast?_concat _
  · rw [get_utc_now_toList]
    intro hmem
    rcases List.mem_append.1 hmem with hmem | hmem
    · exact isoCore_no_plus t _ hmem rfl
    · simp at hmem
  · intro hm
    rw [get_utc_now_toList]
    refine List.mem_append.2 (Or.inl ?_)
    simp [isoCore, fracL, hm]

/-- Concrete clock reading with microseconds used to instantiate the
timestamp theorem. -/
def sampleInstant : PyDatetime := ⟨2025, 1, 15, 10, 30, 0, 123456⟩

/-- Witness for the amended C8 at a concrete instant with nonzero
microseconds. -/
theorem timestamp_invariants_witness :
    validInstant sampleInstant ∧
    (TimestampUtil.validate_timestamp (TimestampUtil.get_utc_now sampleInstant)
        = Except.ok true ∧
      (TimestampUtil.get_utc_now sampleInstant).toList.getLast? = some 'Z' ∧
      '+' ∉ (TimestampUtil.get_utc_now sampleInstant).toList ∧
      (sampleInstant.microsecond ≠ 0 →
        '.' ∈ (TimestampUtil.get_utc_now sampleInstant).toList)) :=
  ⟨by decide, timestamp_invariants sampleInstant (by decide)⟩

end PlayerAgent
